import Mathlib

/-!
Verification of the `MascotReader` disabled-feature stub
(`pwiz/data/mziddata/MascotReader_dummy.cpp`) against its specification.

The stub is the "NullFormatReader" arm of the pwiz mzIdentML reader registry:
`identify` unconditionally returns the empty non-match sentinel, all three
`read` overloads unconditionally throw a `runtime_error`, and `getType`
returns a constant string.  We embed each member function as a pure Lean
function and prove the specified contracts.
-/

namespace Pwiz

/-- Modelled from the spec: the external mzIdentML DocumentModel (spec section 2
lists it as an external collaborator whose internals are out of scope).  It is
represented as a record with one distinguishing field so that distinct document
states exist and statements such as "the output is left untouched" are
non-vacuous.  The stub never inspects or constructs a document, so no more
structure is needed. -/
structure MzIdentML where
  payload : String := ""
deriving DecidableEq, Repr, Inhabited

/-- Modelled from the spec: a shared-ownership handle to a document
(`MzIdentMLPtr`, a `shared_ptr<MzIdentML>` in the surrounding code); `none`
plays the role of the null handle. -/
abbrev MzIdentMLPtr := Option MzIdentML

/-- `listIsInfix needle hay` holds when `needle` occurs contiguously inside
`hay`. -/
def listIsInfix (needle hay : List Char) : Bool :=
  match hay with
  | [] => needle.isEmpty
  | _ :: t => needle.isPrefixOf hay || listIsInfix needle t

/-- `strContains hay needle` holds when `needle` occurs contiguously inside
`hay`; used to state the spec's "match on substrings" error-surface contract. -/
def strContains (hay needle : String) : Bool :=
  listIsInfix needle.toList hay.toList

/-- Modelled from the spec: section 7's error taxonomy.  The C++ code raises
untyped `std::runtime_error`, and per the spec's error surface errors are
"descriptive textual faults" that callers match on substrings, so a message is
classified by its text: a message stating that support is not "enabled" is
FeatureDisabled, one reporting an unrecognized format is UnrecognizedFormat,
one reporting that the file could not be opened or read is IOFailure, and any
other parse-time fault is MalformedInput. -/
inductive ErrorKind
  | unrecognizedFormat
  | featureDisabled
  | malformedInput
  | ioFailure
deriving DecidableEq, Repr

/-- Classification of an error message into the spec's taxonomy, by its text
(see `ErrorKind`). -/
def errorKindOf (msg : String) : ErrorKind :=
  if strContains msg "unrecognized format" then .unrecognizedFormat
  else if strContains msg "enabled" then .featureDisabled
  else if strContains msg "could not be opened" || strContains msg "could not be read"
    then .ioFailure
  else .malformedInput

namespace MascotReader

/-- Embeds `MascotReader::identify(const string& filename, const string& head)`.
A C++ member function may in general throw, so the embedding returns `Except`,
with `.error msg` standing for a thrown exception; the stub's body is the
single statement `return "";`. -/
def identify (filename head : String) : Except String String :=
  Except.ok ""

/-- Embeds `MascotReader::read(const string&, const string&, MzIdentML& result)`.
The body throws `runtime_error("[MascotReader::identify] no mascot support
enabled.")` before touching `result`.  The embedding returns the post-state of
the by-reference output together with `some msg` when an exception carrying
message `msg` propagates (`none` would mean normal return). -/
def readIntoDoc (filename head : String) (result : MzIdentML) :
    MzIdentML × Option String :=
  (result, some "[MascotReader::identify] no mascot support enabled.")

/-- Embeds `MascotReader::read(const string&, const string&, MzIdentMLPtr& result)`.
The body throws `runtime_error("[MascotReader::read] no mascot support
enabled.")` before touching `result`. -/
def readIntoPtr (filename head : String) (result : MzIdentMLPtr) :
    MzIdentMLPtr × Option String :=
  (result, some "[MascotReader::read] no mascot support enabled.")

/-- Embeds `MascotReader::read(const string&, const string&,
vector<MzIdentMLPtr>& results)`.  The body throws `runtime_error(
"[MascotReader::read] no mascot support enabled.")` before touching `results`. -/
def readIntoVec (filename head : String) (results : List MzIdentMLPtr) :
    List MzIdentMLPtr × Option String :=
  (results, some "[MascotReader::read] no mascot support enabled.")

/-- Embeds `MascotReader::getType()`: the body is `return "mzIdentML";`, a
constant independent of any state. -/
def getType : String := "mzIdentML"

end MascotReader

/-- Claim C1: for every filename string and every header string,
`MascotReader::identify` returns the empty/non-match sentinel (the empty
string) — the disabled-feature stub never claims applicability for any input. -/
theorem identify_never_matches (filename head : String) :
    MascotReader.identify filename head = Except.ok "" := rfl

/-- Claim C2: for every filename and header, each of the three
`MascotReader::read` overloads unconditionally raises an error whose message
states the feature is not enabled ("no mascot support enabled"), names the
missing capability, mentions "Mascot", and classifies as FeatureDisabled. -/
theorem read_raises_feature_disabled_mentioning_mascot
    (filename head : String) (doc : MzIdentML) (ptr : MzIdentMLPtr)
    (vec : List MzIdentMLPtr) :
    (∃ m, (MascotReader.readIntoDoc filename head doc).2 = some m ∧
      strContains m "Mascot" = true ∧
      strContains m "no mascot support enabled" = true ∧
      errorKindOf m = .featureDisabled) ∧
    (∃ m, (MascotReader.readIntoPtr filename head ptr).2 = some m ∧
      strContains m "Mascot" = true ∧
      strContains m "no mascot support enabled" = true ∧
      errorKindOf m = .featureDisabled) ∧
    (∃ m, (MascotReader.readIntoVec filename head vec).2 = some m ∧
      strContains m "Mascot" = true ∧
      strContains m "no mascot support enabled" = true ∧
      errorKindOf m = .featureDisabled) :=
  ⟨⟨_, rfl, by decide, by decide, by decide⟩,
   ⟨_, rfl, by decide, by decide, by decide⟩,
   ⟨_, rfl, by decide, by decide, by decide⟩⟩

/-- Claim C3, counterexample: `MascotReader::getType` returns the string
"mzIdentML", in which no Mascot identifier occurs (neither "Mascot" nor
"mascot" is a substring of it), so it is not a Mascot format identifier. -/
theorem getType_not_a_mascot_identifier :
    MascotReader.getType = "mzIdentML" ∧
    strContains MascotReader.getType "Mascot" = false ∧
    strContains MascotReader.getType "mascot" = false :=
  ⟨rfl, by decide, by decide⟩

/-- Claim C3 (amended): `MascotReader::getType` returns the constant string
"mzIdentML" — a stable, human-readable format identifier, pure and constant
across all calls; it names the mzIdentML document format the reader targets
rather than a Mascot-specific format identifier. -/
theorem getType_constant : MascotReader.getType = "mzIdentML" := rfl

/-- Claim C4 (code bug): at a concrete input, the single-document `read`
overload raises the message "[MascotReader::identify] no mascot support
enabled.", whose bracketed tag misattributes the operation — the message does
not start with, or even contain, "[MascotReader::read]" although it is raised
by `read`. -/
theorem readIntoDoc_misattributes_operation :
    (MascotReader.readIntoDoc "results.dat" "" default).2 =
      some "[MascotReader::identify] no mascot support enabled." ∧
    ("[MascotReader::read]".toList).isPrefixOf
      ("[MascotReader::identify] no mascot support enabled.".toList) = false ∧
    strContains "[MascotReader::identify] no mascot support enabled."
      "[MascotReader::read]" = false :=
  ⟨rfl, by decide, by decide⟩

/-- Claim C5: for every input and every arity, `MascotReader::read` leaves its
output target exactly as the caller supplied it while raising an error — it
never partially populates the output. -/
theorem read_leaves_output_untouched (filename head : String)
    (doc : MzIdentML) (ptr : MzIdentMLPtr) (vec : List MzIdentMLPtr) :
    ((MascotReader.readIntoDoc filename head doc).1 = doc ∧
      (MascotReader.readIntoDoc filename head doc).2 ≠ none) ∧
    ((MascotReader.readIntoPtr filename head ptr).1 = ptr ∧
      (MascotReader.readIntoPtr filename head ptr).2 ≠ none) ∧
    ((MascotReader.readIntoVec filename head vec).1 = vec ∧
      (MascotReader.readIntoVec filename head vec).2 ≠ none) :=
  ⟨⟨rfl, Option.some_ne_none _⟩, ⟨rfl, Option.some_ne_none _⟩,
   ⟨rfl, Option.some_ne_none _⟩⟩

/-- Claim C6, counterexample: at the concrete file "results.dat" (any header),
`identify` returns non-match, yet every `read` overload fails with an error
classified as FeatureDisabled — neither MalformedInput nor IOFailure — so
"either succeeds or fails with MalformedInput or IOFailure" is false. -/
theorem read_after_nonmatch_kind_counterexample :
    MascotReader.identify "results.dat" "MIME-Version: 1.0" = Except.ok "" ∧
    (∃ m, (MascotReader.readIntoDoc "results.dat" "MIME-Version: 1.0"
        default).2 = some m ∧
      errorKindOf m = .featureDisabled ∧
      errorKindOf m ≠ .malformedInput ∧ errorKindOf m ≠ .ioFailure) ∧
    (∃ m, (MascotReader.readIntoPtr "results.dat" "MIME-Version: 1.0"
        none).2 = some m ∧
      errorKindOf m = .featureDisabled ∧
      errorKindOf m ≠ .malformedInput ∧ errorKindOf m ≠ .ioFailure) ∧
    (∃ m, (MascotReader.readIntoVec "results.dat" "MIME-Version: 1.0"
        []).2 = some m ∧
      errorKindOf m = .featureDisabled ∧
      errorKindOf m ≠ .malformedInput ∧ errorKindOf m ≠ .ioFailure) :=
  ⟨rfl,
   ⟨_, rfl, by decide, by decide, by decide⟩,
   ⟨_, rfl, by decide, by decide, by decide⟩,
   ⟨_, rfl, by decide, by decide, by decide⟩⟩

/-- Claim C6 (amended): for every file, `identify` returns non-match, and
directly invoking any `read` overload never silently returns an
empty-but-successful result — it always fails, and the failure is
FeatureDisabled (the stub's error kind), not MalformedInput or IOFailure. -/
theorem read_after_nonmatch_fails_feature_disabled (filename head : String)
    (doc : MzIdentML) (ptr : MzIdentMLPtr) (vec : List MzIdentMLPtr) :
    MascotReader.identify filename head = Except.ok "" ∧
    ((MascotReader.readIntoDoc filename head doc).2 ≠ none ∧
      ∀ m, (MascotReader.readIntoDoc filename head doc).2 = some m →
        errorKindOf m = .featureDisabled) ∧
    ((MascotReader.readIntoPtr filename head ptr).2 ≠ none ∧
      ∀ m, (MascotReader.readIntoPtr filename head ptr).2 = some m →
        errorKindOf m = .featureDisabled) ∧
    ((MascotReader.readIntoVec filename head vec).2 ≠ none ∧
      ∀ m, (MascotReader.readIntoVec filename head vec).2 = some m →
        errorKindOf m = .featureDisabled) :=
  ⟨rfl,
   ⟨Option.some_ne_none _, fun m hm => by
      have h := Option.some.inj hm; subst h; decide⟩,
   ⟨Option.some_ne_none _, fun m hm => by
      have h := Option.some.inj hm; subst h; decide⟩,
   ⟨Option.some_ne_none _, fun m hm => by
      have h := Option.some.inj hm; subst h; decide⟩⟩

/-- Claim C7: `MascotReader::identify` never raises an error for any
(filename, header) input — non-applicability is expressed solely by its
(empty) return value, so the exceptional branch of the embedding is
unreachable; as a pure function of its two string arguments it touches no
shared state. -/
theorem identify_never_raises (filename head : String) :
    ∃ r, MascotReader.identify filename head = Except.ok r := ⟨"", rfl⟩

/-- Claim C8: for any two (filename, header) input pairs, `identify` returns
identical results, each `read` overload raises an identical error message, and
`getType` returns the same constant — no observable behaviour of the stub
depends on the input file name or header bytes. -/
theorem stub_input_independent (f₁ h₁ f₂ h₂ : String)
    (doc : MzIdentML) (ptr : MzIdentMLPtr) (vec : List MzIdentMLPtr) :
    MascotReader.identify f₁ h₁ = MascotReader.identify f₂ h₂ ∧
    (MascotReader.readIntoDoc f₁ h₁ doc).2 =
      (MascotReader.readIntoDoc f₂ h₂ doc).2 ∧
    (MascotReader.readIntoPtr f₁ h₁ ptr).2 =
      (MascotReader.readIntoPtr f₂ h₂ ptr).2 ∧
    (MascotReader.readIntoVec f₁ h₁ vec).2 =
      (MascotReader.readIntoVec f₂ h₂ vec).2 ∧
    MascotReader.getType = "mzIdentML" :=
  ⟨rfl, rfl, rfl, rfl, rfl⟩

/-- Claim C9: for every filename — including names of nonexistent files, since
the result is a function of the name string alone and no filesystem is ever
consulted — every `read` overload raises the feature-disabled error and never
an IOFailure. -/
theorem read_never_io_failure (filename head : String)
    (doc : MzIdentML) (ptr : MzIdentMLPtr) (vec : List MzIdentMLPtr) :
    (∃ m, (MascotReader.readIntoDoc filename head doc).2 = some m ∧
      errorKindOf m = .featureDisabled ∧ errorKindOf m ≠ .ioFailure) ∧
    (∃ m, (MascotReader.readIntoPtr filename head ptr).2 = some m ∧
      errorKindOf m = .featureDisabled ∧ errorKindOf m ≠ .ioFailure) ∧
    (∃ m, (MascotReader.readIntoVec filename head vec).2 = some m ∧
      errorKindOf m = .featureDisabled ∧ errorKindOf m ≠ .ioFailure) :=
  ⟨⟨_, rfl, by decide, by decide⟩,
   ⟨_, rfl, by decide, by decide⟩,
   ⟨_, rfl, by decide, by decide⟩⟩

/-- Claim C10: the error messages of the three `read` overloads are not
uniform — the MzIdentMLPtr and vector overloads raise exactly
"[MascotReader::read] no mascot support enabled.", while the single-document
overload raises exactly "[MascotReader::identify] no mascot support enabled.",
a different string that attributes the failure to `identify`. -/
theorem read_error_messages_not_uniform (filename head : String)
    (doc : MzIdentML) (ptr : MzIdentMLPtr) (vec : List MzIdentMLPtr) :
    (MascotReader.readIntoDoc filename head doc).2 =
      some "[MascotReader::identify] no mascot support enabled." ∧
    (MascotReader.readIntoPtr filename head ptr).2 =
      some "[MascotReader::read] no mascot support enabled." ∧
    (MascotReader.readIntoVec filename head vec).2 =
      some "[MascotReader::read] no mascot support enabled." ∧
    ("[MascotReader::identify] no mascot support enabled." : String) ≠
      "[MascotReader::read] no mascot support enabled." :=
  ⟨rfl, rfl, rfl, by decide⟩

end Pwiz
